/-
Verification of the csv_analyzer repository core: a shallow embedding of
the IPC protocol layer (core/ipc.py), the data engine (backend/engine.py)
and the statistics analyzer (backend/analyzer.py), together with theorems
settling the specification claims about those components.

Modelling conventions:
- Python dicts are association lists with the helper operations dlookup,
  dinsert (replace-or-append, preserving insertion order like dict update)
  and derase (key removal).
- Fallible Python calls (engine SQL execution, file system access) are
  Except String results supplied by oracle records; raising an exception
  is returning Except.error with the exception message string.
- DuckDB numeric values are modelled as rationals; SQL FLOOR is Int.floor.
- Wall-clock fields (execution_time) are omitted: timing is outside the
  embedding and no claim mentions it.
-/
import Mathlib

namespace CsvAnalyzer

/-- Lookup in an association list, modelling Python `dict[k]` / `k in dict`. -/
def dlookup {α : Type} : List (String × α) → String → Option α
  | [], _ => none
  | (k', v') :: rest, k => if k' = k then some v' else dlookup rest k

/-- Replace-or-append insertion, modelling Python `dict[k] = v` (an existing
key keeps its position, a new key is appended, as CPython dicts do). -/
def dinsert {α : Type} : List (String × α) → String → α → List (String × α)
  | [], k, v => [(k, v)]
  | (k', v') :: rest, k, v =>
      if k' = k then (k, v) :: rest else (k', v') :: dinsert rest k v

/-- Key deletion, modelling Python `del dict[k]` / `dict.pop(k, None)` on a
dict (keys are unique in a dict, so removing every matching entry agrees). -/
def derase {α : Type} (m : List (String × α)) (k : String) : List (String × α) :=
  m.filter (fun p => !(p.1 == k))

/-- Payload / response values travelling over the IPC queues (`Any` in the
source, restricted to the scalar shapes the protocol actually carries). -/
inductive Value : Type
  | null : Value
  | bool : Bool → Value
  | str : String → Value
  | num : Int → Value
deriving DecidableEq

/-- Structure Message from core/ipc.py: id, kind (the MessageType value string) and
a flat payload dict. -/
structure Message : Type where
  id : String
  type : String
  payload : List (String × Value)
deriving DecidableEq

/-- Structure Response from core/ipc.py: originating request id, success flag,
payload and optional error string. -/
structure Response : Type where
  request_id : String
  success : Bool
  data : Value
  error : Option String := none
deriving DecidableEq

/-- The message kinds for which `BackendWorker` defines a `_handle_<kind>`
method; `getattr(self, f"_handle_{message.type.value}", None)` succeeds
exactly on these.  The MessageType enum additionally contains "response"
and "error", which have no handler. -/
def backendHandlerKinds : List String :=
  ["load_csv", "drop_table", "get_tables", "get_table_info",
   "execute_query", "get_table_data",
   "save_view", "get_views", "delete_view",
   "analyze_table", "analyze_column", "get_missing_report",
   "get_numeric_summary", "get_column_distribution",
   "export_csv", "shutdown"]

/-- The full closed set of MessageType values from core/ipc.py. -/
def messageKinds : List String := backendHandlerKinds ++ ["response", "error"]

/-- Worker-process state: the `running` flag of `BackendWorker.run` plus the
backend (engine + analyzer) state, abstracted by a type parameter. -/
structure WorkerState (σ : Type) : Type where
  running : Bool
  engine : σ

/-- A handler environment: for each dispatchable kind, the behaviour of the
corresponding `_handle_<kind>` body — it transforms the backend state and
either returns a value or raises (Except.error carries `str(e)`; state
mutations made before the raise persist, as in Python). -/
def HandlerEnv (σ : Type) : Type :=
  String → σ → List (String × Value) → σ × Except String Value

/-- Model of `BackendWorker._handle_message` (core/ipc.py lines 133-158): looks up
`_handle_<kind>`; a found handler is invoked and a success Response built
from its result, any exception it raises is caught and turned into a failed
Response with `error=str(e)`; a missing handler yields a failed Response
with the descriptive "Unknown message type" error.  `_handle_shutdown` is
the one handler that touches the running flag: it sets it to False and
returns True, and its body cannot raise. -/
def handleMessage {σ : Type} (handlers : HandlerEnv σ) (st : WorkerState σ)
    (m : Message) : WorkerState σ × Response :=
  if backendHandlerKinds.contains m.type then
    if m.type = "shutdown" then
      ({ st with running := false },
       { request_id := m.id, success := true, data := Value.bool true })
    else
      match handlers m.type st.engine m.payload with
      | (e', Except.ok v) =>
          ({ st with engine := e' },
           { request_id := m.id, success := true, data := v })
      | (e', Except.error s) =>
          ({ st with engine := e' },
           { request_id := m.id, success := false, data := Value.null,
             error := some s })
  else
    (st, { request_id := m.id, success := false, data := Value.null,
           error := some ("Unknown message type: " ++ m.type) })

/-- One iteration of the `BackendWorker.run` loop body for a received
message: dispatch it and push the single resulting Response onto the
outbound channel (returned here as the list of pushed responses). -/
def workerStep {σ : Type} (handlers : HandlerEnv σ) (st : WorkerState σ)
    (m : Message) : WorkerState σ × List Response :=
  let (st', r) := handleMessage handlers st m
  (st', [r])

/-- Structure holding the `IPCClient` bookkeeping state: the request-id counter, the key set of
the `_pending_requests` dict (the Event values are opaque and irrelevant),
and the `_responses` dict. -/
structure ClientState : Type where
  counter : Nat
  pending : List String
  responses : List (String × Response)

/-- Model of `IPCClient._generate_request_id`: increments the counter and formats it. -/
def genRequestId (counter : Nat) : String := "req_" ++ toString (counter + 1)

/-- Model of `IPCClient.send_message` (core/ipc.py lines 394-448).  The interleaving
with the response-listener thread is summarised by `arrival`: `some r` means
the listener stored Response `r` under this request id and signalled the
event before the timeout (so `event.wait` returned true), `none` means the
wait timed out.  The steps mirror the source: generate the id, register the
pending entry, enqueue, wait; on signal pop the stored response and delete
the pending entry and return the response; on timeout delete the pending
entry and any stray stored response and return the synthetic timeout
Response. -/
def send_message (st : ClientState) (arrival : Option Response) :
    ClientState × Response :=
  let rid := genRequestId st.counter
  let st1 : ClientState :=
    { counter := st.counter + 1
      pending := if st.pending.contains rid then st.pending else st.pending ++ [rid]
      responses := st.responses }
  match arrival with
  | some r =>
      let responses1 := dinsert st1.responses rid r
      let responses2 := derase responses1 rid
      let pending2 := st1.pending.filter (fun x => !(x == rid))
      ({ st1 with pending := pending2, responses := responses2 }, r)
  | none =>
      let pending2 := st1.pending.filter (fun x => !(x == rid))
      let responses2 := derase st1.responses rid
      ({ st1 with pending := pending2, responses := responses2 },
       { request_id := rid, success := false, data := Value.null,
         error := some "Request timeout" })

/-- Structure QueryResult from backend/engine.py (the wall-clock `execution_time`
field is omitted; no claim concerns it). -/
structure QueryResult : Type where
  columns : List String
  data : List (List Value)
  row_count : Nat
  total_rows : Nat
  error : Option String := none
deriving DecidableEq

/-- The DuckDB connection as seen by `DataEngine.execute_query`: each field
models one `self._conn.execute(...)` call shape, keyed by the exact SQL text
passed; `Except.error` models the call raising. `runCount` additionally
performs the `.fetchone()[0]` extraction of the single COUNT value,
`runRows` the `.description` / `.fetchall()` extraction of column names and
row data. -/
structure SqlConn : Type where
  runCount : String → Except String Nat
  runRows : String → Except String (List String × List (List Value))
  runExec : String → Except String Unit

/-- Python `str.strip()`: remove leading and trailing whitespace. -/
def pyStrip (s : String) : String :=
  String.mk
    (((s.data.dropWhile Char.isWhitespace).reverse.dropWhile
      Char.isWhitespace).reverse)

/-- Python `str.upper()` (ASCII letters; the SQL keywords compared against
are ASCII). -/
def pyUpper (s : String) : String := String.mk (s.data.map Char.toUpper)

/-- Python `str.startswith(p)`: the first `len(p)` characters equal `p`. -/
def pyStartsWith (s p : String) : Bool := s.data.take p.data.length == p.data

/-- The branch test of `DataEngine.execute_query`:
`sql.strip().upper().startswith('SELECT')`. -/
def isSelectShaped (sql : String) : Bool :=
  pyStartsWith (pyUpper (pyStrip sql)) "SELECT"

/-- The wrapped COUNT statement text built by `execute_query`. -/
def countSql (sql : String) : String :=
  "SELECT COUNT(*) FROM (" ++ sql ++ ") AS _count_query"

/-- The paginated statement text built by `execute_query`. -/
def paginatedSql (sql : String) (limit offset : Nat) : String :=
  sql ++ " LIMIT " ++ toString limit ++ " OFFSET " ++ toString offset

/-- Model of `DataEngine.execute_query` (backend/engine.py lines 168-237).  Returns
the QueryResult together with the trace of SQL texts passed to
`conn.execute`, in order.  A statement whose stripped text starts with
SELECT (case-insensitively) is first counted via the wrapped COUNT query
and then re-executed with LIMIT/OFFSET appended; any other statement is
executed once directly with an empty result shape.  Every exception from
the engine is caught and becomes a QueryResult with empty columns/data,
zero counts and the error field populated — the function is total. -/
def execute_query (conn : SqlConn) (sql : String) (limit offset : Nat) :
    QueryResult × List String :=
  if isSelectShaped sql then
    match conn.runCount (countSql sql) with
    | Except.error e =>
        ({ columns := [], data := [], row_count := 0, total_rows := 0,
           error := some e }, [countSql sql])
    | Except.ok total =>
        match conn.runRows (paginatedSql sql limit offset) with
        | Except.error e =>
            ({ columns := [], data := [], row_count := 0, total_rows := 0,
               error := some e },
             [countSql sql, paginatedSql sql limit offset])
        | Except.ok (cols, rows) =>
            ({ columns := cols, data := rows, row_count := rows.length,
               total_rows := total, error := none },
             [countSql sql, paginatedSql sql limit offset])
  else
    match conn.runExec sql with
    | Except.error e =>
        ({ columns := [], data := [], row_count := 0, total_rows := 0,
           error := some e }, [sql])
    | Except.ok _ =>
        ({ columns := [], data := [], row_count := 0, total_rows := 0,
           error := none }, [sql])

/-- Structure TableInfo from backend/engine.py (columns as (name, dtype) pairs). -/
structure TableInfo : Type where
  name : String
  file_path : String
  row_count : Nat
  columns : List (String × String)
  file_size : Nat
  encoding : String
deriving DecidableEq

/-- Python `os.path.basename` for POSIX paths: the part after the last
slash (empty for a path ending in a slash, the whole string when there is
no slash). -/
def pyBasename (p : String) : String :=
  String.mk ((p.data.reverse.takeWhile (fun c => !(c == '/'))).reverse)

/-- Index of the last '.' in a character list (`str.rfind('.')`, but as an
Option instead of -1). -/
def lastDotIndex (cs : List Char) : Option Nat :=
  (cs.reverse.findIdx? (fun c => c == '.')).map (fun j => cs.length - 1 - j)

/-- Model of `pathlib.PurePath(name).stem` for a plain file name: the name with its
final suffix removed, where a suffix exists only when the last '.' is at
position i with 0 < i < len - 1 (so dotfiles and trailing dots keep their
name).  Special whole-path forms ("." / "..") are outside the scope of the
table-name claims and not modelled. -/
def pyStem (name : String) : String :=
  match lastDotIndex name.data with
  | some i =>
      if 0 < i ∧ i < name.data.length - 1 then String.mk (name.data.take i)
      else name
  | none => name

/-- Model of `DataEngine._sanitize_table_name` (backend/engine.py lines 67-76):
strip the extension, replace every character that is not alphanumeric or
underscore by underscore, prefix with "t_" if the result starts with a
digit, and fall back to "table_1" if the result is empty. -/
def sanitizeTableName (name : String) : String :=
  let s1 := pyStem name
  let s2 := String.mk (s1.data.map
    (fun c => if c.isAlphanum ∨ c = '_' then c else '_'))
  let s3 :=
    if (s2.data.head?.map Char.isDigit).getD false then "t_" ++ s2 else s2
  if s3 = "" then "table_1" else s3

/-- Modelled from the spec claim's words (claim C7): "the file's base name
with the extension stripped, every character that is not alphanumeric or
underscore replaced by underscore, and a prefix inserted if the result
starts with a digit" — for comparison with the source-derived
`sanitizeTableName` (which additionally falls back to "table_1" on an
empty result, a case the claim does not mention). -/
def sanitizeDescribed (name : String) : String :=
  let s := String.mk ((pyStem name).data.map
    (fun c => if c.isAlphanum ∨ c = '_' then c else '_'))
  if (s.data.head?.map Char.isDigit).getD false then "t_" ++ s else s

/-- The base table name chosen by `load_csv`: the caller-supplied name when
it is truthy (Python `if not table_name`), otherwise derived from the
file's base name. -/
def loadBaseName (tableName : Option String) (filePath : String) : String :=
  if tableName.getD "" = "" then sanitizeTableName (pyBasename filePath)
  else tableName.getD ""

/-- The uniqueness loop of `load_csv` (lines 100-105): while the candidate
name is a registered table key, try `original_counter` with an increasing
counter.  The loop is given `tables.length + 1` fuel, enough for every
situation the theorems below consider (the Python loop terminates because
the suffixed names are pairwise distinct and the registry is finite). -/
def freshLoop {α : Type} (orig : String) (tables : List (String × α)) :
    Nat → Nat → String → String
  | _, 0, current => current
  | counter, fuel + 1, current =>
      if (dlookup tables current).isSome then
        freshLoop orig tables (counter + 1) fuel (orig ++ "_" ++ toString counter)
      else current

/-- The unique table name finally used by `load_csv`. -/
def freshName {α : Type} (orig : String) (tables : List (String × α)) : String :=
  freshLoop orig tables 1 (tables.length + 1) orig

/-- The environment of fallible external calls made by `DataEngine.load_csv`:
file existence, encoding detection (chardet over the first 100 KB), the
plain `read_csv_auto` ingestion, the retry with an explicit encoding, the
COUNT(*) row-count read-back, the DESCRIBE schema read-back and
`os.path.getsize`.  Ingestion oracles take the file path and table name. -/
structure LoadEnv : Type where
  pathExists : String → Bool
  detectEncoding : String → Except String String
  ingestPlain : String → String → Except String Unit
  ingestWithEncoding : String → String → String → Except String Unit
  countRows : String → Except String Nat
  describeTable : String → Except String (List (String × String))
  fileSize : String → Except String Nat

/-- Model of `DataEngine.load_csv` (backend/engine.py lines 78-156).  Returns the
table registry after the call together with the result: a missing path
raises FileNotFoundError immediately; a failing plain ingestion is retried
once with the detected encoding; any escaping exception leaves the registry
exactly as it was, because the single registry write
`self._tables[table_name] = table_info` is the last statement before the
return. -/
def load_csv (env : LoadEnv) (tables : List (String × TableInfo))
    (filePath : String) (tableName : Option String) :
    List (String × TableInfo) × Except String TableInfo :=
  if env.pathExists filePath = false then
    (tables, Except.error ("文件不存在: " ++ filePath))
  else
    match env.detectEncoding filePath with
    | Except.error e => (tables, Except.error e)
    | Except.ok encoding =>
      let tname := freshName (loadBaseName tableName filePath) tables
      let ingested : Except String Unit :=
        match env.ingestPlain filePath tname with
        | Except.ok _ => Except.ok ()
        | Except.error _ => env.ingestWithEncoding filePath tname encoding
      match ingested with
      | Except.error e => (tables, Except.error e)
      | Except.ok _ =>
        match env.countRows tname with
        | Except.error e => (tables, Except.error e)
        | Except.ok rc =>
          match env.describeTable tname with
          | Except.error e => (tables, Except.error e)
          | Except.ok cols =>
            match env.fileSize filePath with
            | Except.error e => (tables, Except.error e)
            | Except.ok sz =>
              let ti : TableInfo :=
                { name := tname, file_path := filePath, row_count := rc,
                  columns := cols, file_size := sz, encoding := encoding }
              (dinsert tables tname ti, Except.ok ti)

/-- Structure ColumnStats from backend/analyzer.py (floats as rationals; optional
statistic groups as Option fields, absent on failure as in the source). -/
structure ColumnStats : Type where
  name : String
  dtype : String
  total_count : Nat
  null_count : Nat
  null_percentage : ℚ
  unique_count : Nat
  unique_percentage : ℚ
  min_value : Option ℚ := none
  max_value : Option ℚ := none
  mean_value : Option ℚ := none
  median_value : Option ℚ := none
  std_value : Option ℚ := none
  q1_value : Option ℚ := none
  q3_value : Option ℚ := none
  min_length : Option Nat := none
  max_length : Option Nat := none
  avg_length : Option ℚ := none
  top_values : Option (List (String × Nat)) := none
deriving DecidableEq

/-- Structure TableStats from backend/analyzer.py. -/
structure TableStats : Type where
  table_name : String
  row_count : Nat
  column_count : Nat
  memory_usage : Nat
  columns : List ColumnStats
  null_summary : List (String × Nat)
  dtype_summary : List (String × Nat)
deriving DecidableEq

/-- Model of `DataAnalyzer.analyze_table` (backend/analyzer.py lines 70-125)
restricted to its caching skeleton: `compute` abstracts the whole
recomputation body (lines 86-120) for the fixed engine state of the call —
`none` models `get_table_info` returning nothing, which raises ValueError;
`some s` models a computation producing stats `s`.  The returned Bool
records whether a recomputation happened (false on the cache-hit early
return).  With `force_refresh` unset and a cache entry present, the cached
TableStats is returned unchanged and nothing is recomputed; otherwise the
computed stats are stored under the table name. -/
def analyze_table (compute : Option TableStats)
    (cache : List (String × TableStats)) (t : String) (force : Bool) :
    Except String (TableStats × List (String × TableStats) × Bool) :=
  match force, dlookup cache t with
  | false, some s => Except.ok (s, cache, false)
  | _, _ =>
      match compute with
      | none => Except.error ("表不存在: " ++ t)
      | some s => Except.ok (s, dinsert cache t s, true)

/-- Model of `DataAnalyzer.clear_cache` (backend/analyzer.py lines 603-610): a truthy
table name deletes that one entry, a falsy argument (None, or the empty
string via Python truthiness) clears the whole cache. -/
def clear_cache (cache : List (String × TableStats)) (t : Option String) :
    List (String × TableStats) :=
  match t with
  | some name => if name = "" then [] else derase cache name
  | none => []

/-- The worker-process state relevant to the drop/cache frame claim: the
engine's table registry (`DataEngine._tables`) and the analyzer's
statistics cache (`DataAnalyzer._cache`), which live in different objects. -/
structure SystemState : Type where
  tables : List (String × TableInfo)
  cache : List (String × TableStats)

/-- Model of `DataEngine.drop_table` (backend/engine.py lines 287-297): executes
DROP TABLE IF EXISTS (oracle `connOk` is false when that call raises, in
which case False is returned and nothing changes), then removes the
registry entry if present and returns True.  The analyzer cache is not
touched on any path. -/
def drop_table (connOk : Bool) (sys : SystemState) (t : String) :
    SystemState × Bool :=
  if connOk then ({ sys with tables := derase sys.tables t }, true)
  else (sys, false)

/-- Model of SQL `MIN` over the non-null values of a column (empty list gives NULL). -/
def listMin : List ℚ → Option ℚ
  | [] => none
  | x :: xs => some (xs.foldl min x)

/-- Model of SQL `MAX` over the non-null values of a column. -/
def listMax : List ℚ → Option ℚ
  | [] => none
  | x :: xs => some (xs.foldl max x)

/-- The bin width of `get_column_distribution`:
`(max_val - min_val) / bins if max_val != min_val else 1`. -/
def binWidth (minV maxV : ℚ) (bins : Nat) : ℚ :=
  if maxV ≠ minV then (maxV - minV) / (bins : ℚ) else 1

/-- The bucket index computed by the histogram SQL:
`FLOOR((value - min_val) / bin_width)`. -/
def binIndex (minV bw v : ℚ) : Int := Int.floor ((v - minV) / bw)

/-- The `result["histogram"]` payload of `get_column_distribution`. -/
structure Histogram : Type where
  bins : Nat
  min : ℚ
  max : ℚ
  bin_width : ℚ
  data : List (Int × Nat)
deriving DecidableEq

/-- The numeric branch of `DataAnalyzer.get_column_distribution`
(backend/analyzer.py lines 550-582) for a column whose non-null values are
`values`: MIN and MAX are read, the bin width derived (1 when they are
equal), every value is mapped to `FLOOR((v - min) / bin_width)` and the
indices grouped and counted (the GROUP BY result; its ORDER BY ordering is
immaterial to the claims and first-occurrence order is used here).  When
either extremum is NULL (no non-null values) no histogram is produced, as
in the source. -/
def histogramOf (values : List ℚ) (bins : Nat) : Option Histogram :=
  match listMin values, listMax values with
  | some mn, some mx =>
      let bw := binWidth mn mx bins
      let bl := values.map (binIndex mn bw)
      some { bins := bins, min := mn, max := mx, bin_width := bw,
             data := bl.dedup.map (fun b => (b, bl.count b)) }
  | _, _ => none

/-- The list of bucket indices appearing in the histogram produced for
`values` (empty when no histogram is produced). -/
def histBinList (values : List ℚ) (bins : Nat) : List Int :=
  match histogramOf values bins with
  | some h => h.data.map Prod.fst
  | none => []

/-- Concrete client state used by the C2 witness: counter 3, one unrelated
pending request and one unrelated stored response. -/
def wClientState : ClientState :=
  { counter := 3
    pending := ["req_2"]
    responses :=
      [("req_1", { request_id := "req_1", success := true, data := Value.null })] }

/-- Concrete handler environment whose handlers all raise an exception with
an empty message (`str(e) = ""`, as for a bare `Exception()`). -/
def cexRaiseEmpty : HandlerEnv Unit := fun _ e _ => (e, Except.error "")

/-- Concrete message used by the C1 counterexample. -/
def cexMessage : Message := { id := "req_1", type := "load_csv", payload := [] }

/-- Concrete handler environment raising a catalog error, for the C1
witness. -/
def wRaiseHandlers : HandlerEnv Unit :=
  fun _ e _ => (e, Except.error "Catalog Error: table missing")

/-- Concrete message used by the C1 witness. -/
def wMessage : Message := { id := "req_7", type := "execute_query", payload := [] }

/-- Concrete connection for the C3 witness: a three-row SELECT paginated
with limit 2, offset 1. -/
def w3conn : SqlConn :=
  { runCount := fun s =>
      if s = countSql "SELECT 1" then Except.ok 3 else Except.error "unexpected"
    runRows := fun s =>
      if s = paginatedSql "SELECT 1" 2 1 then
        Except.ok (["1"], [[Value.num 2], [Value.num 3]])
      else Except.error "unexpected"
    runExec := fun _ => Except.error "unexpected" }

/-- The full (unpaginated) result rows assumed for the C3 witness query. -/
def w3rows : List (List Value) := [[Value.num 1], [Value.num 2], [Value.num 3]]

/-- Concrete connection for the C4 witness: every engine call raises. -/
def w4conn : SqlConn :=
  { runCount := fun _ => Except.error "Parser Error: syntax error"
    runRows := fun _ => Except.error "Parser Error: syntax error"
    runExec := fun _ => Except.error "Parser Error: syntax error" }

/-- Concrete connection for the C10 witness: direct execution succeeds. -/
def w10conn : SqlConn :=
  { runCount := fun _ => Except.error "unexpected"
    runRows := fun _ => Except.error "unexpected"
    runExec := fun _ => Except.ok () }

/-- Concrete load environment for the C6 and C7 witnesses: only
"/data/sales.csv" exists, every engine call succeeds. -/
def wLoadEnv : LoadEnv :=
  { pathExists := fun p => p == "/data/sales.csv"
    detectEncoding := fun _ => Except.ok "utf-8"
    ingestPlain := fun _ _ => Except.ok ()
    ingestWithEncoding := fun _ _ _ => Except.ok ()
    countRows := fun _ => Except.ok 3
    describeTable := fun _ => Except.ok [("a", "BIGINT")]
    fileSize := fun _ => Except.ok 10 }

/-- The TableInfo produced by the first C7 witness load. -/
def wTi1 : TableInfo :=
  { name := "sales", file_path := "/data/sales.csv", row_count := 3,
    columns := [("a", "BIGINT")], file_size := 10, encoding := "utf-8" }

/-- The TableInfo produced by the second C7 witness load. -/
def wTi2 : TableInfo :=
  { name := "sales_1", file_path := "/data/sales.csv", row_count := 3,
    columns := [("a", "BIGINT")], file_size := 10, encoding := "utf-8" }

/-- Concrete table statistics value used by the C8 and C9 witnesses. -/
def wStats : TableStats :=
  { table_name := "t", row_count := 2, column_count := 1, memory_usage := 200,
    columns := [], null_summary := [("a", 0)], dtype_summary := [("integer", 1)] }

/-- Counterexample values for C5: ten values evenly spaced over [0, 100)
(the multiples of 10 below 100; all quantities involved — the values, the
bin width 9 and the boundary quotient 90/9 = 10 — are exactly
representable as binary doubles, so the engine's double arithmetic agrees
with the exact rational computation at the decisive point). -/
def C5cexValues : List ℚ := [0, 10, 20, 30, 40, 50, 60, 70, 80, 90]

theorem dlookup_dinsert_self {α : Type} (m : List (String × α)) (k : String)
    (v : α) : dlookup (dinsert m k v) k = some v := by
  induction m with
  | nil => simp [dinsert, dlookup]
  | cons p rest ih =>
      by_cases h : p.1 = k
      · simp [dinsert, dlookup, h]
      · simp [dinsert, dlookup, h, ih]

theorem dlookup_dinsert_ne {α : Type} (m : List (String × α)) (k k' : String)
    (v : α) (hne : ¬ k = k') : dlookup (dinsert m k v) k' = dlookup m k' := by
  induction m with
  | nil => simp [dinsert, dlookup, hne]
  | cons p rest ih =>
      by_cases h : p.1 = k
      · simp [dinsert, dlookup, h, hne]
      · simp [dinsert, dlookup, h, ih]

theorem dlookup_derase_self {α : Type} (m : List (String × α)) (k : String) :
    dlookup (derase m k) k = none := by
  induction m with
  | nil => rfl
  | cons p rest ih =>
      by_cases h : p.1 = k
      · simpa [derase, h] using ih
      · simpa [derase, dlookup, h] using ih

theorem not_mem_filter_ne_self (l : List String) (k : String) :
    ¬ k ∈ l.filter (fun x => !(x == k)) := by
  intro h
  simp [List.mem_filter] at h

theorem foldl_min_le_init (xs : List ℚ) (a : ℚ) : xs.foldl min a ≤ a := by
  induction xs generalizing a with
  | nil => exact le_refl a
  | cons x xs ih => exact le_trans (ih (min a x)) (min_le_left a x)

theorem foldl_min_le_mem (xs : List ℚ) (v : ℚ) :
    v ∈ xs → ∀ a : ℚ, xs.foldl min a ≤ v := by
  induction xs with
  | nil => intro hv; cases hv
  | cons x xs ih =>
      intro hv a
      rcases List.mem_cons.1 hv with h | h
      · subst h
        exact le_trans (foldl_min_le_init xs (min a v)) (min_le_right a v)
      · exact ih h (min a x)

theorem listMin_le (l : List ℚ) (m v : ℚ) (hm : listMin l = some m)
    (hv : v ∈ l) : m ≤ v := by
  cases l with
  | nil => cases hv
  | cons x xs =>
      simp only [listMin, Option.some.injEq] at hm
      subst hm
      rcases List.mem_cons.1 hv with h | h
      · subst h; exact foldl_min_le_init xs v
      · exact foldl_min_le_mem xs v h x

theorem init_le_foldl_max (xs : List ℚ) (a : ℚ) : a ≤ xs.foldl max a := by
  induction xs generalizing a with
  | nil => exact le_refl a
  | cons x xs ih => exact le_trans (le_max_left a x) (ih (max a x))

theorem mem_le_foldl_max (xs : List ℚ) (v : ℚ) :
    v ∈ xs → ∀ a : ℚ, v ≤ xs.foldl max a := by
  induction xs with
  | nil => intro hv; cases hv
  | cons x xs ih =>
      intro hv a
      rcases List.mem_cons.1 hv with h | h
      · subst h
        exact le_trans (le_max_right a v) (init_le_foldl_max xs (max a v))
      · exact ih h (max a x)

theorem le_listMax (l : List ℚ) (m v : ℚ) (hm : listMax l = some m)
    (hv : v ∈ l) : v ≤ m := by
  cases l with
  | nil => cases hv
  | cons x xs =>
      simp only [listMax, Option.some.injEq] at hm
      subst hm
      rcases List.mem_cons.1 hv with h | h
      · subst h; exact init_le_foldl_max xs v
      · exact mem_le_foldl_max xs v h x

theorem load_csv_error_frame (env : LoadEnv) (tables : List (String × TableInfo))
    (p : String) (nm : Option String) (e : String) :
    (load_csv env tables p nm).2 = Except.error e →
      (load_csv env tables p nm).1 = tables := by
  unfold load_csv
  dsimp only
  repeat' split
  all_goals intro h
  all_goals first | rfl | simp at h

theorem load_csv_ok_shape (env : LoadEnv) (tables : List (String × TableInfo))
    (p : String) (nm : Option String) (ti : TableInfo) :
    (load_csv env tables p nm).2 = Except.ok ti →
      ti.name = freshName (loadBaseName nm p) tables ∧
      (load_csv env tables p nm).1 = dinsert tables ti.name ti := by
  unfold load_csv
  dsimp only
  repeat' split
  all_goals intro h
  all_goals first
    | (simp only [Except.ok.injEq] at h
       subst h
       exact ⟨rfl, rfl⟩)
    | simp at h

theorem strAppendAssoc (a b c : String) : a ++ b ++ c = a ++ (b ++ c) := by
  apply String.ext
  simp [String.data_append, List.append_assoc]

theorem freshName_free {α : Type} (orig : String) (tables : List (String × α))
    (h : dlookup tables orig = none) : freshName orig tables = orig := by
  show freshLoop orig tables 1 (tables.length + 1) orig = orig
  simp [freshLoop, h]

theorem freshName_second {α : Type} (orig : String) (tables : List (String × α))
    (h1 : (dlookup tables orig).isSome = true)
    (h2 : dlookup tables (orig ++ "_1") = none) :
    freshName orig tables = orig ++ "_1" := by
  cases tables with
  | nil => simp [dlookup] at h1
  | cons q rest =>
      have hstr : orig ++ "_" ++ toString 1 = orig ++ "_1" := by
        rw [strAppendAssoc]
        exact congrArg (fun t => orig ++ t) (by decide)
      show freshLoop orig (q :: rest) 1 (rest.length + 1 + 1) orig = orig ++ "_1"
      simp only [freshLoop, h1, if_true, hstr, h2]
      simp [h2]

/-- Claim C1, as stated, is refuted at this input: a handler that raises an
exception whose message is empty (Python `str(Exception())` is `""`)
produces a failed Response whose error string is empty, not non-empty —
`_handle_message` stores `str(e)` verbatim. -/
theorem C1_dispatch_counterexample :
    (handleMessage cexRaiseEmpty { running := true, engine := () }
      cexMessage).2.success = false ∧
    (handleMessage cexRaiseEmpty { running := true, engine := () }
      cexMessage).2.error = some "" ∧
    ¬ (∀ s, (handleMessage cexRaiseEmpty { running := true, engine := () }
        cexMessage).2.error = some s → 0 < s.length) := by
  refine ⟨by decide, by decide, fun h => ?_⟩
  exact Nat.lt_irrefl 0 (h "" (by decide))

/-- Claim C1 (amended: the error string on a handler exception is the
exception's message, which may be empty).  For every handler environment,
worker state and message, the dispatch wrapper produces exactly one
Response whose request_id equals the message id; if the handler for the
message kind raises, the Response has success=false and carries the
exception's message as its error, and the loop's running flag is unchanged
(the worker does not terminate); if the kind has no handler, the Response
has success=false with a descriptive error naming the unknown kind. -/
theorem C1_dispatch_amended {σ : Type} (handlers : HandlerEnv σ)
    (st : WorkerState σ) (m : Message) :
    ((workerStep handlers st m).2.length = 1 ∧
      ∀ r ∈ (workerStep handlers st m).2, r.request_id = m.id) ∧
    (∀ e' s, backendHandlerKinds.contains m.type = true →
      ¬ m.type = "shutdown" →
      handlers m.type st.engine m.payload = (e', Except.error s) →
      (handleMessage handlers st m).2.success = false ∧
      (handleMessage handlers st m).2.error = some s ∧
      (handleMessage handlers st m).1.running = st.running) ∧
    (backendHandlerKinds.contains m.type = false →
      (handleMessage handlers st m).2.success = false ∧
      (handleMessage handlers st m).2.error =
        some ("Unknown message type: " ++ m.type)) := by
  refine ⟨⟨?_, ?_⟩, ?_, ?_⟩
  · unfold workerStep
    rfl
  · intro r hr
    unfold workerStep at hr
    simp only [List.mem_singleton] at hr
    subst hr
    unfold handleMessage
    split
    · split
      · rfl
      · rcases hh : handlers m.type st.engine m.payload with ⟨e', v⟩
        cases v <;> simp [hh]
    · rfl
  · intro e' s hk hsh hh
    unfold handleMessage
    rw [hk]
    simp only [if_true]
    rw [if_neg hsh, hh]
    exact ⟨rfl, rfl, rfl⟩
  · intro hk
    unfold handleMessage
    rw [hk]
    exact ⟨rfl, rfl⟩

/-- Witness for C1: a concrete execute_query message whose handler raises a
catalog error is turned into a failed Response carrying that message, with
the worker still running. -/
theorem C1_dispatch_witness :
    backendHandlerKinds.contains "execute_query" = true ∧
    ¬ ("execute_query" = "shutdown") ∧
    wRaiseHandlers "execute_query" () [] =
      ((), Except.error "Catalog Error: table missing") ∧
    ((handleMessage wRaiseHandlers { running := true, engine := () }
        wMessage).2.success = false ∧
      (handleMessage wRaiseHandlers { running := true, engine := () }
        wMessage).2.error = some "Catalog Error: table missing" ∧
      (handleMessage wRaiseHandlers { running := true, engine := () }
        wMessage).1.running = true) :=
  ⟨by decide, by decide, rfl,
    (C1_dispatch_amended wRaiseHandlers { running := true, engine := () }
      wMessage).2.1 () "Catalog Error: table missing" (by decide) (by decide) rfl⟩

/-- Claim C2: a call whose response never arrives in time returns the
synthetic failed Response with error "Request timeout" carrying the
generated request id, and afterwards neither the pending-requests map nor
the stored-responses map contains an entry for that id. -/
theorem C2_timeout_cleanup (st : ClientState) :
    (send_message st none).2 =
      { request_id := genRequestId st.counter, success := false,
        data := Value.null, error := some "Request timeout" } ∧
    ¬ genRequestId st.counter ∈ (send_message st none).1.pending ∧
    dlookup (send_message st none).1.responses (genRequestId st.counter) = none := by
  refine ⟨rfl, ?_, ?_⟩
  · exact not_mem_filter_ne_self _ _
  · exact dlookup_derase_self st.responses (genRequestId st.counter)

/-- Witness for C2: a concrete client state with one unrelated pending
request and stored response; the timed-out call req_4 returns the
synthetic timeout Response and leaves no entry for req_4 in either map. -/
theorem C2_timeout_cleanup_witness :
    (send_message wClientState none).2 =
      { request_id := genRequestId 3, success := false,
        data := Value.null, error := some "Request timeout" } ∧
    ¬ genRequestId 3 ∈ (send_message wClientState none).1.pending ∧
    dlookup (send_message wClientState none).1.responses
      (genRequestId 3) = none :=
  C2_timeout_cleanup wClientState

/-- Claim C3: for a successful SELECT whose full result is `rows` (so the
wrapped COUNT returns `rows.length` and the LIMIT/OFFSET re-execution
returns the corresponding page, which is what a consistent SQL engine
produces), execute_query reports total_rows = N and
row_count = min L (N - O) (truncated subtraction, i.e. min(L, max(0, N-O)));
in particular an offset at or past N yields zero rows, and the error field
is null. -/
theorem C3_pagination_count (conn : SqlConn) (sql : String)
    (limit offset : Nat) (cols : List String) (rows : List (List Value))
    (hsel : isSelectShaped sql = true)
    (hcount : conn.runCount (countSql sql) = Except.ok rows.length)
    (hpage : conn.runRows (paginatedSql sql limit offset) =
      Except.ok (cols, (rows.drop offset).take limit)) :
    (execute_query conn sql limit offset).1.total_rows = rows.length ∧
    (execute_query conn sql limit offset).1.row_count =
      min limit (rows.length - offset) ∧
    (execute_query conn sql limit offset).1.error = none ∧
    (rows.length ≤ offset →
      (execute_query conn sql limit offset).1.row_count = 0) := by
  unfold execute_query
  rw [hsel]
  simp only [if_true]
  rw [hcount, hpage]
  refine ⟨rfl, ?_, rfl, ?_⟩
  · simp [List.length_take, List.length_drop]
  · intro hle
    simp [List.length_take, List.length_drop, Nat.sub_eq_zero_of_le hle]

/-- Witness for C3: a three-row SELECT paged with limit 2, offset 1. -/
theorem C3_pagination_witness :
    isSelectShaped "SELECT 1" = true ∧
    w3conn.runCount (countSql "SELECT 1") = Except.ok w3rows.length ∧
    w3conn.runRows (paginatedSql "SELECT 1" 2 1) =
      Except.ok (["1"], (w3rows.drop 1).take 2) ∧
    ((execute_query w3conn "SELECT 1" 2 1).1.total_rows = w3rows.length ∧
      (execute_query w3conn "SELECT 1" 2 1).1.row_count =
        min 2 (w3rows.length - 1) ∧
      (execute_query w3conn "SELECT 1" 2 1).1.error = none ∧
      (w3rows.length ≤ 1 →
        (execute_query w3conn "SELECT 1" 2 1).1.row_count = 0)) :=
  ⟨by decide, by rfl, by rfl,
    C3_pagination_count w3conn "SELECT 1" 2 1 ["1"] w3rows
      (by decide) (by rfl) (by rfl)⟩

/-- Claim C4: execute_query is a total function (it never raises — the
model returns a QueryResult on every path), and on every engine-level
failure the returned QueryResult carries the failure message in its error
field with empty columns/data and zero counts; when no failure is reported
the error field is none. -/
theorem C4_engine_failure_captured (conn : SqlConn) (sql : String)
    (limit offset : Nat) :
    ((execute_query conn sql limit offset).1.error = none ∨
      ((execute_query conn sql limit offset).1.columns = [] ∧
        (execute_query conn sql limit offset).1.data = [] ∧
        (execute_query conn sql limit offset).1.row_count = 0 ∧
        (execute_query conn sql limit offset).1.total_rows = 0 ∧
        (execute_query conn sql limit offset).1.error ≠ none)) ∧
    (∀ e, isSelectShaped sql = true →
      conn.runCount (countSql sql) = Except.error e →
      (execute_query conn sql limit offset).1 =
        { columns := [], data := [], row_count := 0, total_rows := 0,
          error := some e }) ∧
    (∀ e total, isSelectShaped sql = true →
      conn.runCount (countSql sql) = Except.ok total →
      conn.runRows (paginatedSql sql limit offset) = Except.error e →
      (execute_query conn sql limit offset).1 =
        { columns := [], data := [], row_count := 0, total_rows := 0,
          error := some e }) ∧
    (∀ e, isSelectShaped sql = false →
      conn.runExec sql = Except.error e →
      (execute_query conn sql limit offset).1 =
        { columns := [], data := [], row_count := 0, total_rows := 0,
          error := some e }) := by
  refine ⟨?_, ?_, ?_, ?_⟩
  · unfold execute_query
    split
    · cases hc : conn.runCount (countSql sql) with
      | error e => simp [hc]
      | ok total =>
          cases hr : conn.runRows (paginatedSql sql limit offset) with
          | error e => simp [hc, hr]
          | ok pr => simp [hc, hr]
    · cases he : conn.runExec sql with
      | error e => simp [he]
      | ok u => simp [he]
  · intro e hsel hc
    unfold execute_query
    rw [hsel]
    simp only [if_true]
    rw [hc]
  · intro e total hsel hc hr
    unfold execute_query
    rw [hsel]
    simp only [if_true]
    rw [hc, hr]
  · intro e hsel he
    unfold execute_query
    rw [hsel]
    simp only [Bool.false_eq_true, if_false]
    rw [he]

/-- Witness for C4: a malformed non-SELECT statement whose direct execution
raises is converted into an error-carrying empty QueryResult. -/
theorem C4_engine_failure_witness :
    isSelectShaped "DELETE FROM missing" = false ∧
    w4conn.runExec "DELETE FROM missing" =
      Except.error "Parser Error: syntax error" ∧
    (execute_query w4conn "DELETE FROM missing" 1000 0).1 =
      { columns := [], data := [], row_count := 0, total_rows := 0,
        error := some "Parser Error: syntax error" } :=
  ⟨by decide, rfl,
    (C4_engine_failure_captured w4conn "DELETE FROM missing" 1000 0).2.2.2
      "Parser Error: syntax error" (by decide) rfl⟩

/-- Claim C10: a statement whose stripped text does not begin with SELECT
(case-insensitively) — WITH/CTE queries and parenthesized SELECTs
included — is executed exactly once, as-is, with no pagination, and the
returned QueryResult has empty columns, empty data, row_count = 0 and
total_rows = 0. -/
theorem C10_nonselect_branch (conn : SqlConn) (sql : String)
    (limit offset : Nat) (h : isSelectShaped sql = false) :
    (execute_query conn sql limit offset).2 = [sql] ∧
    (execute_query conn sql limit offset).1.columns = [] ∧
    (execute_query conn sql limit offset).1.data = [] ∧
    (execute_query conn sql limit offset).1.row_count = 0 ∧
    (execute_query conn sql limit offset).1.total_rows = 0 := by
  unfold execute_query
  rw [h]
  simp only [Bool.false_eq_true, if_false]
  cases he : conn.runExec sql <;> simp [he]

/-- Witness for C10: a row-returning WITH/CTE query does not pass the
SELECT-literal prefix test and takes the unpaginated empty-result branch. -/
theorem C10_nonselect_witness :
    isSelectShaped "WITH t AS (SELECT 1) SELECT * FROM t" = false ∧
    ((execute_query w10conn "WITH t AS (SELECT 1) SELECT * FROM t" 1000 0).2 =
        ["WITH t AS (SELECT 1) SELECT * FROM t"] ∧
      (execute_query w10conn "WITH t AS (SELECT 1) SELECT * FROM t"
        1000 0).1.columns = [] ∧
      (execute_query w10conn "WITH t AS (SELECT 1) SELECT * FROM t"
        1000 0).1.data = [] ∧
      (execute_query w10conn "WITH t AS (SELECT 1) SELECT * FROM t"
        1000 0).1.row_count = 0 ∧
      (execute_query w10conn "WITH t AS (SELECT 1) SELECT * FROM t"
        1000 0).1.total_rows = 0) :=
  ⟨by decide,
    C10_nonselect_branch w10conn "WITH t AS (SELECT 1) SELECT * FROM t"
      1000 0 (by decide)⟩

/-- Claim C6: load_csv fails immediately when the source path does not
exist, and every failed load — missing path, ingestion failing even after
the retry with the detected encoding, or any later read-back failure —
leaves the table registry exactly as it was: no partial TableInfo is
registered. -/
theorem C6_failed_load_registry (env : LoadEnv)
    (tables : List (String × TableInfo)) (p : String) (nm : Option String) :
    (env.pathExists p = false →
      (load_csv env tables p nm).2 = Except.error ("文件不存在: " ++ p)) ∧
    (∀ e, (load_csv env tables p nm).2 = Except.error e →
      (load_csv env tables p nm).1 = tables) := by
  constructor
  · intro h
    unfold load_csv
    rw [if_pos h]
  · exact fun e => load_csv_error_frame env tables p nm e

/-- Witness for C6: loading a missing path raises and leaves the (empty)
registry unchanged. -/
theorem C6_failed_load_witness :
    wLoadEnv.pathExists "/missing.csv" = false ∧
    (load_csv wLoadEnv [] "/missing.csv" none).2 =
      Except.error ("文件不存在: " ++ "/missing.csv") ∧
    (load_csv wLoadEnv [] "/missing.csv" none).1 = [] := by
  have h := C6_failed_load_registry wLoadEnv [] "/missing.csv" none
  exact ⟨by rfl, h.1 (by rfl), h.2 _ (h.1 (by rfl))⟩

/-- Claim C7: with no supplied name, load_csv derives the table name from
the file's base name (extension stripped, non-alphanumeric characters
replaced by underscore, digit-leading names prefixed — the
`sanitizeDescribed` phrasing of the claim agrees with the source whenever
its result is non-empty), and a name collision is resolved by an appended
increasing numeric suffix: loading the same file twice yields names `n` and
`n_1`. -/
theorem C7_table_name_suffix (env : LoadEnv)
    (tables : List (String × TableInfo)) (p : String) (ti1 ti2 : TableInfo)
    (h1 : dlookup tables (sanitizeTableName (pyBasename p)) = none)
    (h2 : dlookup tables (sanitizeTableName (pyBasename p) ++ "_1") = none)
    (hL1 : (load_csv env tables p none).2 = Except.ok ti1)
    (hL2 : (load_csv env (load_csv env tables p none).1 p none).2 =
      Except.ok ti2) :
    ti1.name = sanitizeTableName (pyBasename p) ∧
    ti2.name = sanitizeTableName (pyBasename p) ++ "_1" ∧
    (∀ name, ¬ sanitizeDescribed name = "" →
      sanitizeTableName name = sanitizeDescribed name) := by
  have base_eq : loadBaseName none p = sanitizeTableName (pyBasename p) := rfl
  obtain ⟨hn1, hreg1⟩ := load_csv_ok_shape env tables p none ti1 hL1
  rw [base_eq, freshName_free _ _ h1] at hn1
  obtain ⟨hn2, hreg2⟩ := load_csv_ok_shape env _ p none ti2 hL2
  rw [base_eq, hreg1, hn1] at hn2
  have hne : ¬ sanitizeTableName (pyBasename p) =
      sanitizeTableName (pyBasename p) ++ "_1" := by
    intro heq
    have hlen := congrArg String.length heq
    rw [String.length_append] at hlen
    have h2len : String.length "_1" = 2 := rfl
    omega
  have hsome : (dlookup (dinsert tables (sanitizeTableName (pyBasename p)) ti1)
      (sanitizeTableName (pyBasename p))).isSome = true := by
    rw [dlookup_dinsert_self]
    rfl
  have hnone : dlookup (dinsert tables (sanitizeTableName (pyBasename p)) ti1)
      (sanitizeTableName (pyBasename p) ++ "_1") = none := by
    rw [dlookup_dinsert_ne _ _ _ _ hne]
    exact h2
  rw [freshName_second _ _ hsome hnone] at hn2
  refine ⟨hn1, hn2, ?_⟩
  intro name h
  have hdef : sanitizeTableName name =
      if sanitizeDescribed name = "" then "table_1"
      else sanitizeDescribed name := rfl
  rw [hdef, if_neg h]

/-- Witness for C7: loading /data/sales.csv twice into an empty registry
produces tables named "sales" and "sales_1". -/
theorem C7_table_name_witness :
    dlookup ([] : List (String × TableInfo))
      (sanitizeTableName (pyBasename "/data/sales.csv")) = none ∧
    dlookup ([] : List (String × TableInfo))
      (sanitizeTableName (pyBasename "/data/sales.csv") ++ "_1") = none ∧
    (load_csv wLoadEnv [] "/data/sales.csv" none).2 = Except.ok wTi1 ∧
    (load_csv wLoadEnv (load_csv wLoadEnv [] "/data/sales.csv" none).1
      "/data/sales.csv" none).2 = Except.ok wTi2 ∧
    (wTi1.name = sanitizeTableName (pyBasename "/data/sales.csv") ∧
      wTi2.name = sanitizeTableName (pyBasename "/data/sales.csv") ++ "_1" ∧
      (∀ name, ¬ sanitizeDescribed name = "" →
        sanitizeTableName name = sanitizeDescribed name)) :=
  ⟨rfl, rfl, rfl, rfl,
    C7_table_name_suffix wLoadEnv [] "/data/sales.csv" wTi1 wTi2
      rfl rfl rfl rfl⟩

/-- Claim C8: analyze_table with force_refresh=false called twice with no
intervening mutation returns the identical TableStats; the second call is a
cache hit (the recomputation flag is false) returning the stored value. -/
theorem C8_analyze_cache_hit (compute : Option TableStats)
    (cache : List (String × TableStats)) (t : String) (s : TableStats)
    (cache1 : List (String × TableStats)) (b : Bool)
    (h : analyze_table compute cache t false = Except.ok (s, cache1, b)) :
    analyze_table compute cache1 t false = Except.ok (s, cache1, false) ∧
    dlookup cache1 t = some s := by
  unfold analyze_table at h
  cases hc : dlookup cache t with
  | some s0 =>
      rw [hc] at h
      simp only [Except.ok.injEq, Prod.mk.injEq] at h
      obtain ⟨hs, hcache, hb⟩ := h
      subst hs
      subst hcache
      constructor
      · unfold analyze_table
        rw [hc]
      · exact hc
  | none =>
      rw [hc] at h
      cases compute with
      | none => simp at h
      | some s' =>
          simp only [Except.ok.injEq, Prod.mk.injEq] at h
          obtain ⟨hs, hcache, hb⟩ := h
          subst hs
          subst hcache
          constructor
          · unfold analyze_table
            rw [dlookup_dinsert_self]
          · exact dlookup_dinsert_self cache t s'

/-- Witness for C8: a first analyze call computes and caches the stats;
the second call is a cache hit returning the same value. -/
theorem C8_analyze_cache_witness :
    analyze_table (some wStats) [] "t" false =
      Except.ok (wStats, [("t", wStats)], true) ∧
    (analyze_table (some wStats) [("t", wStats)] "t" false =
        Except.ok (wStats, [("t", wStats)], false) ∧
      dlookup [("t", wStats)] "t" = some wStats) :=
  ⟨rfl, C8_analyze_cache_hit (some wStats) [] "t" wStats [("t", wStats)] true rfl⟩

/-- Claim C9: drop_table leaves the analyzer's statistics cache untouched
on every path, so a cached entry still answers a later
analyze_table(t, force_refresh=false) call; an entry disappears or is
replaced only through an explicit clear_cache call or a
force_refresh=true recomputation. -/
theorem C9_drop_preserves_cache (connOk : Bool) (sys : SystemState)
    (t : String) (s : TableStats) (compute : Option TableStats) :
    (drop_table connOk sys t).1.cache = sys.cache ∧
    (dlookup sys.cache t = some s →
      analyze_table compute (drop_table connOk sys t).1.cache t false =
        Except.ok (s, sys.cache, false)) ∧
    (¬ t = "" → dlookup (clear_cache sys.cache (some t)) t = none) ∧
    (∀ s', compute = some s' →
      analyze_table compute sys.cache t true =
        Except.ok (s', dinsert sys.cache t s', true)) := by
  have hcache : (drop_table connOk sys t).1.cache = sys.cache := by
    unfold drop_table
    split <;> rfl
  refine ⟨hcache, ?_, ?_, ?_⟩
  · intro hs
    rw [hcache]
    unfold analyze_table
    rw [hs]
  · intro ht
    have hdef : clear_cache sys.cache (some t) =
        if t = "" then [] else derase sys.cache t := rfl
    rw [hdef, if_neg ht]
    exact dlookup_derase_self _ _
  · intro s' hc
    subst hc
    unfold analyze_table
    rfl

/-- Witness for C9: dropping a table leaves its cached stats in place and
a later cache-hit analyze call still returns them; clearing removes the
entry and a forced refresh replaces it. -/
theorem C9_drop_preserves_cache_witness :
    dlookup [("t", wStats)] "t" = some wStats ∧
    ¬ ("t" = "") ∧
    ((drop_table true { tables := [("t", wTi1)], cache := [("t", wStats)] }
        "t").1.cache = [("t", wStats)] ∧
      analyze_table (some wStats)
        (drop_table true { tables := [("t", wTi1)], cache := [("t", wStats)] }
          "t").1.cache "t" false = Except.ok (wStats, [("t", wStats)], false) ∧
      dlookup (clear_cache [("t", wStats)] (some "t")) "t" = none ∧
      analyze_table (some wStats) [("t", wStats)] "t" true =
        Except.ok (wStats, dinsert [("t", wStats)] "t" wStats, true)) := by
  have h := C9_drop_preserves_cache true
    { tables := [("t", wTi1)], cache := [("t", wStats)] } "t" wStats
    (some wStats)
  exact ⟨rfl, by decide, h.1, h.2.1 rfl, h.2.2.1 (by decide),
    h.2.2.2 wStats rfl⟩

theorem histBinList_eq (values : List ℚ) (bins : Nat) :
    histBinList values bins =
      match listMin values, listMax values with
      | some mn, some mx =>
          (values.map (binIndex mn (binWidth mn mx bins))).dedup
      | _, _ => [] := by
  unfold histBinList histogramOf
  cases listMin values <;> cases listMax values <;> simp [List.map_map]
  exact List.map_id _

/-- Claim C5, as stated, is refuted at this input: for the ten values
0, 10, ..., 90 (uniformly distributed over [0,100), no nulls) with
bins = 10, the bin width is (90 - 0) / 10 = 9 and the maximum value 90
gets bucket index floor((90 - 0) / 9) = 10, outside 0..9: the bucket
indices emitted by the histogram SQL are 0..8 and 10. -/
theorem C5_histogram_counterexample :
    (10 : Int) ∈ histBinList C5cexValues 10 ∧
    ¬ (∀ b ∈ histBinList C5cexValues 10, b ≤ 9) := by
  have hmn : listMin C5cexValues = some 0 := by decide
  have hmx : listMax C5cexValues = some 90 := by decide
  have hbw : binWidth 0 90 10 = 9 := by
    unfold binWidth
    norm_num
  have hmap : C5cexValues.map (binIndex 0 9) =
      [0, 1, 2, 3, 4, 5, 6, 7, 8, 10] := by
    unfold C5cexValues binIndex
    norm_num
  have hfin : histBinList C5cexValues 10 = [0, 1, 2, 3, 4, 5, 6, 7, 8, 10] := by
    rw [histBinList_eq]
    simp only [hmn, hmx]
    rw [hbw, hmap]
    decide
  rw [hfin]
  constructor
  · decide
  · decide

/-- Claim C5 (amended: the bucket indices lie in 0..10, not 0..9 — when
min ≠ max the maximum value always lands in bucket bins = 10, as the
counterexample shows; the code has no clamp).  For a numeric column whose
non-null values lie in [0,100), with bins = 10: every value is mapped to
exactly one bucket index, that index lies in 0..10 and equals 10 precisely
for the maximum value (when min ≠ max); the per-bucket counts of the
produced histogram sum to the total number of non-null rows; and when all
values are equal the bin width is forced to 1 and every value falls into
bucket 0. -/
theorem C5_histogram_amended (values : List ℚ) (mn mx : ℚ)
    (hrange : ∀ v ∈ values, 0 ≤ v ∧ v < 100)
    (hmn : listMin values = some mn) (hmx : listMax values = some mx) :
    (∀ v ∈ values, 0 ≤ binIndex mn (binWidth mn mx 10) v ∧
      binIndex mn (binWidth mn mx 10) v ≤ 10) ∧
    (¬ mn = mx → ∀ v ∈ values,
      (binIndex mn (binWidth mn mx 10) v = 10 ↔ v = mx)) ∧
    (∀ hg, histogramOf values 10 = some hg →
      (hg.data.map Prod.snd).sum = values.length) ∧
    (mn = mx → binWidth mn mx 10 = 1 ∧
      ∀ v ∈ values, binIndex mn (binWidth mn mx 10) v = 0) := by
  have hmle : ∀ v ∈ values, mn ≤ v := fun v hv => listMin_le values mn v hmn hv
  have hlemx : ∀ v ∈ values, v ≤ mx := fun v hv => le_listMax values mx v hmx hv
  have hsum : ∀ hg, histogramOf values 10 = some hg →
      (hg.data.map Prod.snd).sum = values.length := by
    intro hg hh
    unfold histogramOf at hh
    rw [hmn, hmx] at hh
    simp only [Option.some.injEq] at hh
    subst hh
    simp only [List.map_map]
    have hcomp : (Prod.snd ∘ fun b =>
        (b, (values.map (binIndex mn (binWidth mn mx 10))).count b)) =
        fun b => (values.map (binIndex mn (binWidth mn mx 10))).count b := rfl
    rw [hcomp, List.sum_map_count_dedup_eq_length, List.length_map]
  by_cases hEq : mn = mx
  · have hbw1 : binWidth mn mx 10 = 1 := by
      unfold binWidth
      rw [if_neg]
      intro hne
      exact hne hEq.symm
    have hzero : ∀ v ∈ values, binIndex mn (binWidth mn mx 10) v = 0 := by
      intro v hv
      have hveq : v = mn := le_antisymm (hEq ▸ hlemx v hv) (hmle v hv)
      rw [hbw1]
      unfold binIndex
      rw [hveq]
      simp
    refine ⟨?_, fun hne => absurd hEq hne, hsum, fun _ => ⟨hbw1, hzero⟩⟩
    intro v hv
    rw [hzero v hv]
    constructor <;> norm_num
  · have hmnmx : mn ≤ mx := by
      cases values with
      | nil => simp [listMin] at hmn
      | cons x xs =>
          exact le_trans (hmle x (List.mem_cons_self x xs))
            (hlemx x (List.mem_cons_self x xs))
    have hlt : mn < mx := lt_of_le_of_ne hmnmx hEq
    have hne' : mx ≠ mn := fun h => hEq h.symm
    have hbw : binWidth mn mx 10 = (mx - mn) / 10 := by
      unfold binWidth
      rw [if_pos hne']
      norm_num
    have hbwpos : 0 < binWidth mn mx 10 := by
      rw [hbw]
      have hsub : 0 < mx - mn := sub_pos.2 hlt
      positivity
    have hbmul : 10 * binWidth mn mx 10 = mx - mn := by
      rw [hbw]
      ring
    have hub : ∀ v ∈ values, (v - mn) / binWidth mn mx 10 ≤ 10 := by
      intro v hv
      rw [div_le_iff₀ hbwpos, hbmul]
      exact sub_le_sub_right (hlemx v hv) mn
    have hlb : ∀ v ∈ values, 0 ≤ (v - mn) / binWidth mn mx 10 := by
      intro v hv
      exact div_nonneg (sub_nonneg.2 (hmle v hv)) hbwpos.le
    have hbound : ∀ v ∈ values, 0 ≤ binIndex mn (binWidth mn mx 10) v ∧
        binIndex mn (binWidth mn mx 10) v ≤ 10 := by
      intro v hv
      constructor
      · exact Int.floor_nonneg.2 (hlb v hv)
      · have h11 : binIndex mn (binWidth mn mx 10) v < 11 := by
          unfold binIndex
          apply Int.floor_lt.2
          push_cast
          linarith [hub v hv]
        omega
    refine ⟨hbound, ?_, hsum, fun h => absurd h hEq⟩
    intro _ v hv
    constructor
    · intro h10
      have hge : ((10:ℤ):ℚ) ≤ (v - mn) / binWidth mn mx 10 := by
        apply Int.le_floor.1
        unfold binIndex at h10
        omega
      rw [Int.cast_ofNat] at hge
      rw [le_div_iff₀ hbwpos, hbmul] at hge
      have hvge : mx ≤ v := by linarith
      exact le_antisymm (hlemx v hv) hvge
    · intro hveq
      rw [hveq]
      unfold binIndex
      have hq : (mx - mn) / binWidth mn mx 10 = 10 := by
        rw [div_eq_iff hbwpos.ne']
        linarith [hbmul]
      rw [hq]
      rw [show ((10:ℚ)) = ((10:ℤ):ℚ) by norm_num, Int.floor_intCast]

/-- Witness for C5: the two-value column [0, 50] inside [0,100) with
bins = 10 — bucket indices are in 0..10, only the maximum 50 reaches
bucket 10, and the bucket counts sum to 2. -/
theorem C5_histogram_witness :
    (∀ v ∈ [(0:ℚ), 50], 0 ≤ v ∧ v < 100) ∧
    listMin [(0:ℚ), 50] = some 0 ∧
    listMax [(0:ℚ), 50] = some 50 ∧
    ((∀ v ∈ [(0:ℚ), 50], 0 ≤ binIndex 0 (binWidth 0 50 10) v ∧
        binIndex 0 (binWidth 0 50 10) v ≤ 10) ∧
      (¬ (0:ℚ) = 50 → ∀ v ∈ [(0:ℚ), 50],
        (binIndex 0 (binWidth 0 50 10) v = 10 ↔ v = 50)) ∧
      (∀ hg, histogramOf [(0:ℚ), 50] 10 = some hg →
        (hg.data.map Prod.snd).sum = ([(0:ℚ), 50]).length) ∧
      ((0:ℚ) = 50 → binWidth 0 50 10 = 1 ∧
        ∀ v ∈ [(0:ℚ), 50], binIndex 0 (binWidth 0 50 10) v = 0)) :=
  ⟨by decide, by decide, by decide,
    C5_histogram_amended [(0:ℚ), 50] 0 50 (by decide) (by decide) (by decide)⟩

end CsvAnalyzer
